import Mathlib

/-!
# route-sherlock: verification of the analysis-engine specification

A shallow embedding, in Lean 4, of the algorithmic core of the
`route_sherlock` Python package, together with theorems settling the
specification claims about it.

Embedding conventions:
* Python `int` values are `Nat` (all quantities involved are counts or AS
  numbers; no claim exercises negative values or overflow).
* A provider call that may raise is an `Option`-valued input: `none` means
  the call raised, `some v` means it returned `v`.  Where the *kind* of
  exception matters (PeeringDB `NotFoundError` vs. any other exception),
  a dedicated result type is used.
* Python `set` iteration order is unspecified; wherever a set is iterated,
  the embedding uses a list in first-occurrence order.  Every theorem below
  depends only on order-insensitive facts (membership, counts, `Nodup`) of
  such lists, or on singletons, so this determinization is harmless.
* `dict` values of heterogeneous type (`details` / `evidence`) are embedded
  as explicit optional fields for exactly the keys the source writes.
-/

namespace RouteSherlock

/-- First-occurrence deduplication (auxiliary): keep an element unless it
was already seen. -/
def dedupFirstAux {α : Type} [DecidableEq α] (seen : List α) :
    List α → List α
  | [] => []
  | a :: l =>
    if a ∈ seen then dedupFirstAux seen l
    else a :: dedupFirstAux (seen ++ [a]) l

/-- First-occurrence deduplication: the embedding of iterating a Python
`set` built from a list, determinized to the order of first insertion. -/
def dedupFirst {α : Type} [DecidableEq α] (l : List α) : List α :=
  dedupFirstAux [] l

theorem mem_dedupFirstAux {α : Type} [DecidableEq α] {x : α}
    {l : List α} : ∀ {seen : List α},
    x ∈ dedupFirstAux seen l ↔ x ∈ l ∧ x ∉ seen := by
  induction l with
  | nil => intro seen; simp [dedupFirstAux]
  | cons a l ih =>
    intro seen
    by_cases ha : a ∈ seen
    · simp only [dedupFirstAux, if_pos ha, ih, List.mem_cons]
      constructor
      · rintro ⟨hx, hns⟩; exact ⟨Or.inr hx, hns⟩
      · rintro ⟨hx | hx, hns⟩
        · exact absurd (hx ▸ ha) hns
        · exact ⟨hx, hns⟩
    · simp only [dedupFirstAux, if_neg ha, List.mem_cons, ih,
        List.mem_append, List.mem_singleton]
      constructor
      · rintro (rfl | ⟨hx, hns⟩)
        · exact ⟨Or.inl rfl, ha⟩
        · exact ⟨Or.inr hx, fun h => hns (Or.inl h)⟩
      · rintro ⟨rfl | hx, hns⟩
        · exact Or.inl rfl
        · by_cases hxa : x = a
          · exact Or.inl hxa
          · exact Or.inr ⟨hx, fun h =>
              h.elim hns (fun h2 => h2.elim hxa (List.not_mem_nil x))⟩

theorem nodup_dedupFirstAux {α : Type} [DecidableEq α] {l : List α} :
    ∀ {seen : List α}, (dedupFirstAux seen l).Nodup := by
  induction l with
  | nil => intro seen; simp [dedupFirstAux]
  | cons a l ih =>
    intro seen
    by_cases ha : a ∈ seen
    · simpa [dedupFirstAux, if_pos ha] using ih
    · rw [dedupFirstAux, if_neg ha]
      refine List.nodup_cons.mpr ⟨fun hmem => ?_, ih⟩
      exact (mem_dedupFirstAux.mp hmem).2 (by simp)

theorem mem_dedupFirst {α : Type} [DecidableEq α] {x : α} {l : List α} :
    x ∈ dedupFirst l ↔ x ∈ l := by
  simp [dedupFirst, mem_dedupFirstAux]

theorem nodup_dedupFirst {α : Type} [DecidableEq α] (l : List α) :
    (dedupFirst l).Nodup :=
  nodup_dedupFirstAux

/-- Stable insertion (auxiliary for `sortStable`): place `a` before the
first element `b` with `le a b`. -/
def insertStable {α : Type} (le : α → α → Bool) (a : α) :
    List α → List α
  | [] => [a]
  | b :: l => if le a b then a :: b :: l else b :: insertStable le a l

/-- Stable sort by `le` (insertion sort).  With `le x y := x.2 ≥ y.2`
this reproduces Python's stable descending-by-count `sorted`, which is
what `Counter.most_common` performs. -/
def sortStable {α : Type} (le : α → α → Bool) : List α → List α
  | [] => []
  | a :: l => insertStable le a (sortStable le l)

/-! ## Data model (`analysis/models.py`) -/

/-- `HealthStatus` enum from `analysis/models.py`. -/
inductive HealthStatus where
  | healthy
  | warning
  | critical
  | unknown
deriving DecidableEq, Repr

/-- `RiskLevel` enum from `analysis/models.py`.  Note: it has exactly the
four members `low`, `medium`, `high`, `critical`; there is no "none". -/
inductive RiskLevel where
  | low
  | medium
  | high
  | critical
deriving DecidableEq, Repr

/-- `AnomalyType` enum from `analysis/models.py` (members used by the
analysis engine). -/
inductive AnomalyType where
  | prefix_hijack
  | route_leak
  | path_change
  | visibility_drop
  | rpki_invalid
  | moas
  | subprefix_hijack
  | unusual_path_length
deriving DecidableEq, Repr

/-- `PathHop` from `analysis/models.py`. -/
structure PathHop where
  asn : Nat
  position : Nat
  is_origin : Bool
  is_destination : Bool
deriving DecidableEq, Repr

/-- `ASPath` from `analysis/models.py`, as constructed by
`PathAnalyzer._create_as_path` (all fields are passed explicitly there,
so the pydantic `__init__` defaulting logic never fires). -/
structure ASPath where
  path : List Nat
  hops : List PathHop
  length : Nat
  origin_asn : Nat
  has_prepending : Bool
  prepend_count : Nat
deriving DecidableEq, Repr

/-- `PathAnalysis` from `analysis/models.py`.  `avg_path_length` is a
Python float; it is embedded as the exact rational the source computes
(a sum of small naturals divided by a count, far below any double
rounding boundary relevant to the claims, none of which mention it). -/
structure PathAnalysis where
  destination : String
  path_count : Nat := 0
  unique_paths : List ASPath := []
  avg_path_length : ℚ := 0
  min_path_length : Nat := 0
  max_path_length : Nat := 0
  common_transit : List Nat := []
  origin_asns : List Nat := []
deriving DecidableEq, Repr

/-- `Anomaly` from `analysis/models.py`.  The heterogeneous `details` dict
is embedded as optional fields for the keys the detectors write; the
`detected_at` wall-clock default and free-form description string carry no
claim-relevant content but the description is kept where it is cheap. -/
structure Anomaly where
  type : AnomalyType
  severity : RiskLevel
  resource : String
  description : String
  expected_origin : Option Nat := none
  observed_origin : Option Nat := none
  details_path : List Nat := []
  details_prepend_count : Option Nat := none
  details_origin_asns : List Nat := []
deriving DecidableEq, Repr

/-- `AnomalyReport` from `analysis/models.py`; `risk_level` defaults to
`RiskLevel.LOW`. -/
structure AnomalyReport where
  resource : String
  anomalies : List Anomaly := []
  risk_level : RiskLevel := RiskLevel.low
deriving DecidableEq, Repr

/-! ## Path analyzer (`analysis/paths.py`) -/

/-- Auxiliary for `splitWhitespace`: `cur` holds the current token in
reverse. -/
def splitWsAux : List Char → List Char → List (List Char)
  | [], cur => if cur = [] then [] else [cur.reverse]
  | c :: cs, cur =>
    if c.isWhitespace then
      if cur = [] then splitWsAux cs []
      else cur.reverse :: splitWsAux cs []
    else splitWsAux cs (c :: cur)

/-- Python `str.split()` with no argument: split on whitespace runs,
dropping empty fields.  Implemented over the character list so that it
reduces in the kernel. -/
def splitWhitespace (s : String) : List (List Char) :=
  splitWsAux s.data []

/-- Python `int(token)` restricted to the token shapes produced by AS-path
data: a non-empty all-digit token parses to its decimal value, anything
else raises (`none`).  (Python `int` also accepts signs, surrounding
whitespace and inner underscores, none of which occur after a whitespace
split of AS-path strings.) -/
def charsToNat? (cs : List Char) : Option Nat :=
  if cs ≠ [] ∧ cs.all Char.isDigit then
    some (cs.foldl (fun n c => n * 10 + (c.toNat - 48)) 0)
  else none

/-- `PathAnalyzer._parse_as_path`: split the string on whitespace, skip
tokens starting with `{` (AS sets), parse the rest as integers, skipping
tokens that do not parse. -/
def parse_as_path (path_str : String) : List Nat :=
  (splitWhitespace path_str).filterMap
    (fun part =>
      if part.head? = some '{' then none else charsToNat? part)

/-- Number of positions `i ≥ 1` with `path[i] = path[i-1]`
(`_create_as_path`'s prepend loop). -/
def prependCount : List Nat → Nat
  | [] => 0
  | [_] => 0
  | a :: b :: rest => (if a = b then 1 else 0) + prependCount (b :: rest)

/-- `PathAnalyzer._create_as_path`. -/
def create_as_path (path : List Nat) : ASPath :=
  { path := path
    hops := (List.range path.length).zipWith
      (fun i asn =>
        { asn := asn
          position := i
          is_origin := i = 0
          is_destination := i = path.length - 1 }) path
    length := path.length
    origin_asn := (path.getLast?).getD 0
    has_prepending := prependCount path > 0
    prepend_count := prependCount path }

/-- The per-path transit contribution in `_find_common_transit`:
`set(path[1:-1]) if len(path) > 2 else set()`, in first-occurrence order. -/
def transitSet (path : List Nat) : List Nat :=
  if path.length > 2 then ((path.drop 1).dropLast) |> dedupFirst else []

/-- `PathAnalyzer._find_common_transit` with the default `threshold = 0.5`:
count, over all raw paths, the ASNs of each path's transit set, take the
ten most frequent (stable descending sort mirrors `Counter.most_common`),
and keep those whose count is at least half the raw path count
(`count ≥ len(paths) * 0.5` becomes `2 * count ≥ len(paths)`). -/
def find_common_transit (paths : List (List Nat)) : List Nat :=
  if paths.isEmpty then []
  else
    let elems := paths.flatMap transitSet
    let keys := elems |> dedupFirst
    let counted := keys.map (fun a => (a, elems.count a))
    let sorted := sortStable (fun x y => x.2 ≥ y.2) counted
    ((sorted.take 10).filter (fun x => 2 * x.2 ≥ paths.length)).map Prod.fst

/-- `PathAnalyzer.analyze_paths`, as a function of the looking-glass
response flattened to the per-peer `as_path` strings (the source iterates
`lg_data.rrcs` / `rrc.peers` and uses nothing else of the response).
A raised provider call corresponds to the empty analysis, which is also
what the `except` branch returns, so the failure case coincides with
passing no paths.  Deduplication (`set(tuple(p) ...)`) is embedded as
`eraseDups` (first-occurrence order); every claim about the result is
insensitive to the order of the deduplicated list. -/
def analyze_paths (resource : String) (peerPathStrings : List String) :
    PathAnalysis :=
  let all_paths := (peerPathStrings.filter (fun s => s.data ≠ [])).filterMap
    (fun s => let p := parse_as_path s; if p.isEmpty then none else some p)
  let origin_asns := (all_paths.filterMap List.getLast?) |> dedupFirst
  if all_paths.isEmpty then { destination := resource }
  else
    let unique_paths := all_paths |> dedupFirst
    let path_lengths := unique_paths.map List.length
    { destination := resource
      path_count := all_paths.length
      unique_paths := (unique_paths.take 20).map create_as_path
      avg_path_length := (path_lengths.sum : ℚ) / (path_lengths.length : ℚ)
      min_path_length := (path_lengths.min?).getD 0
      max_path_length := (path_lengths.max?).getD 0
      common_transit := find_common_transit all_paths
      origin_asns := origin_asns }

/-- `PathAnalyzer._check_moas`, as a function of the path analysis it
computes for the resource. -/
def check_moas (resource : String) (analysis : PathAnalysis) : List Anomaly :=
  if analysis.origin_asns.length > 1 then
    [{ type := AnomalyType.moas
       severity := RiskLevel.high
       resource := resource
       description := "Multiple origin ASNs detected"
       details_origin_asns := analysis.origin_asns }]
  else []

/-- The RPKI validation record consumed by `_check_rpki`
(`models/ripestat.py`, fields used by the check). -/
structure RPKIValidation where
  status : String
  expected_origin : Option Nat := none
  observed_origin : Option Nat := none
deriving DecidableEq, Repr

/-- Python `str.isdigit` restricted to ASCII input: non-empty and all
characters are decimal digits. -/
def isDigitString (s : String) : Bool :=
  s.data ≠ [] && s.data.all Char.isDigit

/-- `resource.upper().startswith("AS")`, over the character list. -/
def startsWithASUpper (s : String) : Bool :=
  match s.data.map Char.toUpper with
  | 'A' :: 'S' :: _ => true
  | _ => false

/-- `PathAnalyzer._check_rpki`, as a function of the validation-call
result (`none` when the provider call raised; the `except` swallows it). -/
def check_rpki (resource : String) (validation : Option RPKIValidation) :
    List Anomaly :=
  if startsWithASUpper resource || isDigitString resource then
    []
  else
    match validation with
    | none => []
    | some v =>
      if v.status = "invalid" then
        [{ type := AnomalyType.rpki_invalid
           severity := RiskLevel.critical
           resource := resource
           description := "RPKI validation failed - prefix may be hijacked"
           expected_origin := v.expected_origin
           observed_origin := v.observed_origin }]
      else []

/-- `PathAnalyzer._check_unusual_paths`, as a function of the path
analysis it computes for the resource.  The `for path in
analysis.unique_paths: ... break` loop reports at most one prepending
anomaly, for the first matching path: `find?`. -/
def check_unusual_paths (resource : String) (analysis : PathAnalysis) :
    List Anomaly :=
  let longAnoms :=
    if analysis.max_path_length > 10 then
      [{ type := AnomalyType.unusual_path_length
         severity := RiskLevel.medium
         resource := resource
         description := "Unusually long AS path detected" }]
    else []
  let prependAnoms :=
    match analysis.unique_paths.find? (fun p => p.prepend_count > 5) with
    | some p =>
      [{ type := AnomalyType.unusual_path_length
         severity := RiskLevel.low
         resource := resource
         description := "Excessive AS prepending detected"
         details_path := p.path
         details_prepend_count := some p.prepend_count }]
    | none => []
  longAnoms ++ prependAnoms

/-- `PathAnalyzer.detect_anomalies`, as a function of the three check
results.  (Each check catches its own exceptions and returns a list, so
the `return_exceptions=True` / `isinstance(..., list)` guards always see
lists; a check whose provider calls raised contributes `[]`.)  The severity
ladder at the end of `detect_anomalies` tests `critical`, then `high`,
then `medium`; otherwise `risk_level` keeps the model default `LOW`. -/
def reportRiskLevel (anomalies : List Anomaly) : RiskLevel :=
  if anomalies.any (fun a => a.severity = RiskLevel.critical) then
    RiskLevel.critical
  else if anomalies.any (fun a => a.severity = RiskLevel.high) then
    RiskLevel.high
  else if anomalies.any (fun a => a.severity = RiskLevel.medium) then
    RiskLevel.medium
  else RiskLevel.low

/-- `PathAnalyzer.detect_anomalies`: concatenate the three check results
and derive the report risk level. -/
def detect_anomalies_report (resource : String)
    (moas_result rpki_result path_result : List Anomaly) : AnomalyReport :=
  let anomalies := moas_result ++ rpki_result ++ path_result
  { resource := resource
    anomalies := anomalies
    risk_level := reportRiskLevel anomalies }

/-! ## ASN profile analyzer (`analysis/asn.py`, `analysis/models.py`) -/

/-- `ASNIdentity` from `analysis/models.py`. -/
structure ASNIdentity where
  asn : Nat
  name : String := ""
  org_name : String := ""
  country : String := ""
  rir : String := ""
  network_type : String := ""
  website : String := ""
deriving DecidableEq, Repr

/-- `RoutingFootprint` from `analysis/models.py`. -/
structure RoutingFootprint where
  ipv4_prefixes : Nat := 0
  ipv6_prefixes : Nat := 0
  total_prefixes : Nat := 0
  ipv4_addresses : Nat := 0
  upstream_count : Nat := 0
  downstream_count : Nat := 0
  peer_count : Nat := 0
deriving DecidableEq, Repr

/-- `RPKIStatus` from `analysis/models.py` (`coverage_percent` is a float;
embedded as the exact rational `valid / total * 100`). -/
structure RPKIStatus where
  has_roas : Bool := false
  valid_prefixes : Nat := 0
  invalid_prefixes : Nat := 0
  not_found_prefixes : Nat := 0
  coverage_percent : ℚ := 0
deriving DecidableEq, Repr

/-- `ConnectivityProfile` from `analysis/models.py`. -/
structure ConnectivityProfile where
  ix_count : Nat := 0
  facility_count : Nat := 0
  peering_policy : String := ""
  has_looking_glass : Bool := false
  has_route_server : Bool := false
  irr_as_set : String := ""
  ixes : List String := []
  top_upstreams : List Nat := []
deriving DecidableEq, Repr

/-- `AtlasCoverage` from `analysis/models.py`. -/
structure AtlasCoverage where
  probe_count : Nat := 0
  connected_probes : Nat := 0
  anchor_count : Nat := 0
  countries : List String := []
deriving DecidableEq, Repr

/-- `ASNProfile` from `analysis/models.py` (without the wall-clock
`last_updated` field). -/
structure ASNProfile where
  identity : ASNIdentity
  footprint : RoutingFootprint
  rpki : RPKIStatus
  connectivity : ConnectivityProfile
  atlas : AtlasCoverage
  health : HealthStatus := HealthStatus.unknown
deriving DecidableEq, Repr

/-- `ASNAnalyzer._assess_health`, source lines 296–328 of
`analysis/asn.py`. -/
def assess_health (footprint : RoutingFootprint) (rpki : RPKIStatus)
    (connectivity : ConnectivityProfile) : HealthStatus :=
  let issues : Nat :=
    (if rpki.invalid_prefixes > 0 then 2
     else if ¬rpki.has_roas then 1 else 0)
    + (if footprint.upstream_count < 2 then 1 else 0)
    + (if connectivity.ix_count = 1 then 1
       else if connectivity.ix_count = 0 ∧ footprint.total_prefixes > 0 then 1
       else 0)
  if issues ≥ 3 then HealthStatus.critical
  else if issues ≥ 2 then HealthStatus.warning
  else if issues = 0 then HealthStatus.healthy
  else HealthStatus.warning

/-- Result of a PeeringDB call, distinguishing the exception kinds that
`asn.py` handles differently: `get_identity` catches only
`PeeringDBNotFoundError`, so any other exception from
`get_network_by_asn` propagates out of `get_identity` (and hence out of
the `asyncio.gather` in `get_profile`). -/
inductive PDBRes (α : Type) where
  | ok (value : α)
  | notFound
  | otherError
deriving DecidableEq, Repr

/-- The PeeringDB `Network` record (`models/peeringdb.py`), fields used by
the analysis engine.  Pydantic string fields default to `""` and `org_id`
is an `int` (`0` is falsy in the `if network.org_id:` guard). -/
structure PDBNetwork where
  org_id : Nat := 0
  name : String := ""
  looking_glass : String := ""
  route_server : String := ""
  irr_as_set : String := ""
  info_type : String := ""
  policy_general : String := ""
  policy_url : String := ""
  website : String := ""
deriving DecidableEq, Repr

/-- The `as-overview` record fields used by `get_identity`
(`overview.holder or ""` collapses a missing holder to `""`, so a plain
string field suffices). -/
structure ASOverview where
  holder : String := ""
  rir : String := ""
deriving DecidableEq, Repr

/-- `ASNAnalyzer.get_identity`, as a function of its three provider-call
results.  The first `try` (RIPEstat overview) and the inner organization
`try` catch every exception, but the outer PeeringDB `try` catches only
`PeeringDBNotFoundError`: a `PDBRes.otherError` network result makes the
whole call raise (`none`). -/
def get_identity (asn : Nat) (overview : Option ASOverview)
    (network : PDBRes PDBNetwork) (org : Option (String × String)) :
    Option ASNIdentity :=
  let base : ASNIdentity := { asn := asn }
  let base :=
    match overview with
    | some ov => { base with name := ov.holder, rir := ov.rir }
    | none => base
  match network with
  | PDBRes.otherError => none
  | PDBRes.notFound => some base
  | PDBRes.ok nw =>
    let withNet :=
      { base with
        name := if base.name = "" then nw.name else base.name
        network_type := nw.info_type
        website := nw.website }
    if nw.org_id ≠ 0 then
      match org with
      | some (orgName, orgCountry) =>
        some { withNet with org_name := orgName, country := orgCountry }
      | none => some withNet
    else some withNet

/-- The announced-prefixes record fields used by
`get_routing_footprint` (`models/ripestat.py`). -/
structure AnnouncedPrefixes where
  ipv4_prefixes : List String := []
  ipv6_prefixes : List String := []
  prefix_count : Nat := 0
deriving DecidableEq, Repr

/-- The neighbour record fields used by `get_routing_footprint`
(lists of neighbour ASNs per relationship class). -/
structure ASNeighbours where
  upstreams : List Nat := []
  downstreams : List Nat := []
  left : List Nat := []
  right : List Nat := []
deriving DecidableEq, Repr

/-- The `2 ** (32 - prefix_len)` address estimate for one IPv4 prefix
string; a prefix without a parseable mask contributes nothing
(`except (IndexError, ValueError): pass`).  Masks above 32 (which in
Python would produce a fractional float) do not occur in provider data
and are embedded as 0. -/
def prefixAddressCount (p : String) : Nat :=
  match (p.splitOn "/").drop 1 with
  | [] => 0
  | m :: _ =>
    match m.toNat? with
    | some len => if len ≤ 32 then 2 ^ (32 - len) else 0
    | none => 0

/-- `ASNAnalyzer.get_routing_footprint`, as a function of its two
provider-call results (each `try` catches every exception, so the
function is total). -/
def get_routing_footprint (prefixes : Option AnnouncedPrefixes)
    (neighbours : Option ASNeighbours) : RoutingFootprint :=
  let fp : RoutingFootprint := {}
  let fp :=
    match prefixes with
    | some pr =>
      { fp with
        ipv4_prefixes := pr.ipv4_prefixes.length
        ipv6_prefixes := pr.ipv6_prefixes.length
        total_prefixes := pr.prefix_count
        ipv4_addresses := (pr.ipv4_prefixes.map prefixAddressCount).sum }
    | none => fp
  match neighbours with
  | some nb =>
    { fp with
      upstream_count := nb.upstreams.length
      downstream_count := nb.downstreams.length
      peer_count := nb.left.length + nb.right.length }
  | none => fp

/-- `ASNAnalyzer.get_rpki_status`, as a function of the
`check_rpki_status` result: the lengths of the `valid` / `invalid` /
`not_found` prefix lists. -/
def get_rpki_status (rpkiData : Option (Nat × Nat × Nat)) : RPKIStatus :=
  match rpkiData with
  | none => {}
  | some (valid, invalid, not_found) =>
    let total := valid + invalid + not_found
    { has_roas := valid > 0
      valid_prefixes := valid
      invalid_prefixes := invalid
      not_found_prefixes := not_found
      coverage_percent :=
        if total > 0 then (valid : ℚ) / (total : ℚ) * 100 else 0 }

/-- The network-presence record fields used by
`get_connectivity_profile` (`exchanges` flattened to the IX names the
source extracts). -/
structure NetworkPresence where
  ix_count : Nat := 0
  facility_count : Nat := 0
  exchanges : List String := []
deriving DecidableEq, Repr

/-- `ASNAnalyzer.get_connectivity_profile`, as a function of its three
provider-call results.  The source assigns the presence-derived fields
*before* calling `get_network_by_asn`, so a failing network call (of any
kind — both `except` clauses swallow it) leaves the presence fields set;
a failing presence call skips the network call entirely.  The
`top_upstreams` assignment comes from a separate RIPEstat `try` and is
independent of the PeeringDB failures. -/
def get_connectivity_profile (presence : Option NetworkPresence)
    (network : Option PDBNetwork) (upstreams : Option (List Nat)) :
    ConnectivityProfile :=
  let profile : ConnectivityProfile := {}
  let profile :=
    match presence with
    | some pr =>
      { profile with
        ix_count := pr.ix_count
        facility_count := pr.facility_count
        ixes := pr.exchanges.take 10 }
    | none => profile
  let profile :=
    match presence, network with
    | some _, some nw =>
      { profile with
        peering_policy := nw.policy_general
        has_looking_glass := nw.looking_glass ≠ ""
        has_route_server := nw.route_server ≠ ""
        irr_as_set := nw.irr_as_set }
    | _, _ => profile
  match upstreams with
  | some ups => { profile with top_upstreams := ups.take 5 }
  | none => profile

/-- `ASNAnalyzer.get_atlas_coverage`, as a function of the coverage-call
result. -/
def get_atlas_coverage (data : Option AtlasCoverage) : AtlasCoverage :=
  data.getD {}

/-- The bundle of provider-call results feeding one `get_profile` call. -/
structure ProfileInputs where
  overview : Option ASOverview := none
  identNetwork : PDBRes PDBNetwork := PDBRes.notFound
  identOrg : Option (String × String) := none
  prefixes : Option AnnouncedPrefixes := none
  neighbours : Option ASNeighbours := none
  rpkiData : Option (Nat × Nat × Nat) := none
  presence : Option NetworkPresence := none
  connNetwork : Option PDBNetwork := none
  upstreams : Option (List Nat) := none
  atlasData : Option AtlasCoverage := none

/-- `ASNAnalyzer.get_profile`: gather the five facet fetches and derive
health.  Of the five, only `get_identity` can raise (see
`get_identity`); `asyncio.gather` without `return_exceptions` then
re-raises, so the whole call yields `none`. -/
def get_profile (asn : Nat) (inp : ProfileInputs) : Option ASNProfile :=
  match get_identity asn inp.overview inp.identNetwork inp.identOrg with
  | none => none
  | some identity =>
    let footprint := get_routing_footprint inp.prefixes inp.neighbours
    let rpki := get_rpki_status inp.rpkiData
    let connectivity :=
      get_connectivity_profile inp.presence inp.connNetwork inp.upstreams
    some
      { identity := identity
        footprint := footprint
        rpki := rpki
        connectivity := connectivity
        atlas := get_atlas_coverage inp.atlasData
        health := assess_health footprint rpki connectivity }

/-! ## Peer-risk scoring (`cli/commands.py`, `run_peer_risk`) -/

/-- The risk-level / recommendation mapping applied to the total score at
the end of `run_peer_risk` (lines 1273–1288). -/
def riskClassification (total_score : Nat) : String × String :=
  if total_score ≥ 80 then ("LOW", "RECOMMENDED")
  else if total_score ≥ 60 then ("MODERATE", "ACCEPTABLE")
  else if total_score ≥ 40 then ("ELEVATED", "CAUTION")
  else ("HIGH", "NOT RECOMMENDED")

/-- The total score: sum of the five category scores
(`sum(s["score"] for s in risk_data["scores"].values())`). -/
def totalScore (maturity stability incident policy security : Nat) : Nat :=
  maturity + stability + incident + policy + security

/-- The Policy category of `run_peer_risk` (lines 1219–1241), as a
function of the recorded network policy.  `networkPolicy = some p` means
the PeeringDB lookup succeeded and stored `policy = network.policy_general
= p` in `risk_data["network"]`; `none` means the lookup failed
(`PeeringDBNotFoundError` or any other exception), in which case the
`"policy"` key is absent and `risk_data.get("network", {}).get("policy",
"Unknown")` yields the (truthy) default string `"Unknown"`.  Returns the
score and whether a warning was appended. -/
def policy_category (networkPolicy : Option String) : Nat × Bool :=
  let policy := networkPolicy.getD "Unknown"
  if policy ≠ "" then
    let policy_lower := policy.data.map Char.toLower
    if policy_lower = "open".data then (10, false)
    else if policy_lower = "selective".data then (7, false)
    else if policy_lower = "restrictive".data then (3, true)
    else (5, false)
  else (0, false)

/-! ## Historical backtest (`collectors/bgpstream.py`) -/

/-- `BGPEvent` dataclass from `collectors/bgpstream.py`.  Timestamps are
abstract naturals (only equality and the position of `events[0]` matter
to any claim). -/
structure BGPEvent where
  timestamp : Nat
  event_type : String
  pfx : String
  as_path : List Nat
  origin_asn : Option Nat
  collector : String := ""
  peer_asn : Option Nat := none
deriving DecidableEq, Repr

/-- `AnomalyDetection` dataclass from `collectors/bgpstream.py`.  The
`evidence` dict is embedded as optional fields for the keys each detector
writes; the numeric interpolations inside the free-form `description`
strings are omitted (no claim mentions descriptions). -/
structure AnomalyDetection where
  anomaly_type : String
  timestamp : Nat
  pfx : String
  description : String
  severity : String := "medium"
  ev_as_path : List Nat := []
  ev_origin : Option Nat := none
  ev_leaker : Option Nat := none
  ev_expected : Option Nat := none
  ev_actual : Option Nat := none
  ev_baseline_path : List Nat := []
  ev_suspicious_as : Option Nat := none
  ev_origins : List Nat := []
deriving DecidableEq, Repr

/-- Python truthiness of an `int | None` value: `None` and `0` are falsy. -/
def optTruthy : Option Nat → Bool
  | none => false
  | some n => n ≠ 0

/-- First pass of `detect_anomalies`: every announcement with a non-empty
path of length ≤ 3 enters the baseline set.  The source keeps a `set` of
tuples; downstream only the first match of a `for`-loop and membership
matter, so a duplicate-keeping list in event order is an equivalent
determinization. -/
def baseline_pathsOf (events : List BGPEvent) : List (List Nat) :=
  events.filterMap (fun ev =>
    if ev.event_type = "A" ∧ ev.as_path ≠ [] ∧ ev.as_path.length ≤ 3 then
      some ev.as_path
    else none)

/-- `int(prefix.split("/")[1]) if "/" in prefix else 32` (a malformed
mask, which would raise in the source, is embedded as 0; no claim
exercises malformed prefixes). -/
def maskLenOfPfx (p : String) : Nat :=
  if (p.splitOn "/").length > 1 then
    (((p.splitOn "/")[1]?).getD "").toNat?.getD 0
  else 32

/-- The more-specific-prefix check of `detect_anomalies` (lines 193–204).
An expected prefix without a mask would raise `IndexError` in the source;
it is embedded as firing nothing and is never exercised by a claim. -/
def more_specific_anoms (expPfx : Option String) (ev : BGPEvent) :
    List AnomalyDetection :=
  match expPfx with
  | none => []
  | some ep =>
    if ep = "" then []
    else
      match (ep.splitOn "/")[1]? with
      | none => []
      | some mask =>
        let expected_len := mask.toNat?.getD 0
        let actual_len := maskLenOfPfx ev.pfx
        if actual_len > expected_len ∧
            ev.pfx.startsWith ((ep.splitOn "/").headD "") then
          [{ anomaly_type := "more_specific"
             timestamp := ev.timestamp
             pfx := ev.pfx
             description := "More specific prefix announced"
             severity := "critical"
             ev_as_path := ev.as_path
             ev_origin := ev.origin_asn }]
        else []

/-- The origin-mismatch check of `detect_anomalies` (lines 206–226):
guarded by Python truthiness of both the expected and the observed
origin; a leak if the expected origin is still somewhere in the path,
otherwise a hijack. -/
def origin_mismatch_anoms (expected : Option Nat) (ev : BGPEvent) :
    List AnomalyDetection :=
  match expected, ev.origin_asn with
  | some e, some o =>
    if e ≠ 0 ∧ o ≠ 0 ∧ o ≠ e then
      if e ∈ ev.as_path then
        [{ anomaly_type := "leak"
           timestamp := ev.timestamp
           pfx := ev.pfx
           description := "Route leak: expected origin still in path"
           severity := "high"
           ev_as_path := ev.as_path
           ev_leaker := some o }]
      else
        [{ anomaly_type := "hijack"
           timestamp := ev.timestamp
           pfx := ev.pfx
           description := "Origin mismatch"
           severity := "critical"
           ev_as_path := ev.as_path
           ev_expected := some e
           ev_actual := some o }]
    else []
  | _, _ => []

/-- `set(event.as_path[1:-1])` in first-occurrence order. -/
def intermediateASes (path : List Nat) : List Nat :=
  ((path.drop 1).dropLast) |> dedupFirst

/-- The baseline-match test of the path-leak check (line 235): note the
comparison requires `len(baseline) <= 2`, although the baseline set also
stores paths of length 3. -/
def baselineMatches (path : List Nat) (b : List Nat) : Bool :=
  b.length ≤ 2 && path.head? = b.head? && path.getLast? = b.getLast?

/-- The `path_leak` anomaly record appended for one suspicious AS. -/
def mkPathLeakAnom (ev : BGPEvent) (b : List Nat) (asn : Nat) :
    AnomalyDetection :=
  { anomaly_type := "path_leak"
    timestamp := ev.timestamp
    pfx := ev.pfx
    description := "Path leak: AS injected into path"
    severity := "high"
    ev_as_path := ev.as_path
    ev_baseline_path := b
    ev_suspicious_as := some asn }

/-- The `for asn in extra_ases:` loop body of the path-leak check: flag the
AS unless it is already in `suspicious_ases_seen`. -/
def flagStep (mk : Nat → AnomalyDetection)
    (acc : List AnomalyDetection × List Nat) (asn : Nat) :
    List AnomalyDetection × List Nat :=
  if asn ∈ acc.2 then acc else (acc.1 ++ [mk asn], acc.2 ++ [asn])

/-- The path-leak check of `detect_anomalies` (lines 228–253), threaded
through the `suspicious_ases_seen` accumulator.  The source iterates a
`set` of baselines and `break`s after the first match; every matching
baseline yields the same flagged-AS set (all of `set(path[1:-1])` not yet
seen), so `find?` over the event-ordered baseline list is an equivalent
determinization. -/
def path_leak_step (expected : Option Nat) (baselines : List (List Nat))
    (suspicious : List Nat) (ev : BGPEvent) :
    List AnomalyDetection × List Nat :=
  if optTruthy expected ∧ ev.origin_asn = expected ∧ ev.as_path.length > 2 then
    match baselines.find? (baselineMatches ev.as_path) with
    | some b =>
      (intermediateASes ev.as_path).foldl (flagStep (mkPathLeakAnom ev b))
        ([], suspicious)
    | none => ([], suspicious)
  else ([], suspicious)

/-- Accumulator of the main loop of `detect_anomalies`.  The source also
maintains `seen_paths`, which is written but never read; it is omitted. -/
structure DetAcc where
  anomalies : List AnomalyDetection := []
  seen_origins : List Nat := []
  suspicious : List Nat := []
deriving DecidableEq, Repr

/-- One iteration of the main loop of `detect_anomalies`: withdrawals are
skipped; the three checks run in source order; the observed origin (when
truthy) enters `seen_origins`. -/
def process_event (expected : Option Nat) (expPfx : Option String)
    (baselines : List (List Nat)) (acc : DetAcc) (ev : BGPEvent) : DetAcc :=
  if ev.event_type ≠ "A" then acc
  else
    let ms := more_specific_anoms expPfx ev
    let om := origin_mismatch_anoms expected ev
    let pl := path_leak_step expected baselines acc.suspicious ev
    let seen :=
      match ev.origin_asn with
      | some o =>
        if o ≠ 0 ∧ o ∉ acc.seen_origins then acc.seen_origins ++ [o]
        else acc.seen_origins
      | none => acc.seen_origins
    { anomalies := acc.anomalies ++ ms ++ om ++ pl.1
      seen_origins := seen
      suspicious := pl.2 }

/-- `BGPStreamClient.detect_anomalies`.  After the main loop, if more
than one truthy origin was seen and an expected origin is set, one
`origin_change` anomaly is appended per unexpected origin (the source
stamps them with `events[0].timestamp`, or the wall clock when `events`
is empty — unreachable, since then `seen_origins` is empty; embedded
as 0). -/
def detect_anomalies_hist (events : List BGPEvent) (expected : Option Nat)
    (expPfx : Option String) : List AnomalyDetection :=
  let baselines := baseline_pathsOf events
  let acc := events.foldl (process_event expected expPfx baselines) {}
  if acc.seen_origins.length > 1 ∧ optTruthy expected then
    acc.anomalies ++
      (acc.seen_origins.filter (fun o => some o ≠ expected)).map (fun _ =>
        { anomaly_type := "origin_change"
          timestamp := (events.head?.map (·.timestamp)).getD 0
          pfx :=
            if (expPfx.getD "") = "" then "unknown" else expPfx.getD ""
          description := "Multiple origins detected"
          severity := "high"
          ev_origins := acc.seen_origins })
  else acc.anomalies

/-! ## Lemmas about the historical detector's event fold -/

theorem process_event_anomalies_append (exp : Option Nat)
    (expPfx : Option String) (baselines : List (List Nat)) (acc : DetAcc)
    (ev : BGPEvent) :
    ∃ d, (process_event exp expPfx baselines acc ev).anomalies =
      acc.anomalies ++ d := by
  unfold process_event
  by_cases h : ev.event_type ≠ "A"
  · rw [if_pos h]; exact ⟨[], (List.append_nil _).symm⟩
  · rw [if_neg h]
    exact ⟨more_specific_anoms expPfx ev ++
      (origin_mismatch_anoms exp ev ++
        (path_leak_step exp baselines acc.suspicious ev).1),
      by simp [List.append_assoc]⟩

theorem foldl_anomalies_mono (exp : Option Nat) (expPfx : Option String)
    (baselines : List (List Nat)) :
    ∀ (evs : List BGPEvent) (acc : DetAcc) (a : AnomalyDetection),
      a ∈ acc.anomalies →
      a ∈ (evs.foldl (process_event exp expPfx baselines) acc).anomalies := by
  intro evs
  induction evs with
  | nil => intro acc a h; exact h
  | cons e es ih =>
    intro acc a h
    rw [List.foldl_cons]
    obtain ⟨d, hd⟩ := process_event_anomalies_append exp expPfx baselines acc e
    exact ih _ a (hd ▸ List.mem_append_left d h)

theorem origin_mismatch_in_foldl (exp : Option Nat) (expPfx : Option String)
    (baselines : List (List Nat)) :
    ∀ (events : List BGPEvent) (acc : DetAcc) (ev : BGPEvent),
      ev ∈ events → ev.event_type = "A" →
      ∀ a ∈ origin_mismatch_anoms exp ev,
        a ∈ (events.foldl (process_event exp expPfx baselines) acc).anomalies := by
  intro events
  induction events with
  | nil => intro acc ev h; exact absurd h (List.not_mem_nil ev)
  | cons e es ih =>
    intro acc ev hmem hann a ha
    rw [List.foldl_cons]
    rcases List.mem_cons.mp hmem with rfl | hm
    · apply foldl_anomalies_mono
      show a ∈ (process_event exp expPfx baselines acc ev).anomalies
      unfold process_event
      rw [if_neg (not_not.mpr hann)]
      simp only [List.mem_append]
      exact Or.inl (Or.inr ha)
    · exact ih _ ev hm hann a ha

theorem mem_detect_anomalies_hist_of_foldl (exp : Option Nat)
    (expPfx : Option String) (events : List BGPEvent)
    (a : AnomalyDetection)
    (h : a ∈ (events.foldl
        (process_event exp expPfx (baseline_pathsOf events))
        {}).anomalies) :
    a ∈ detect_anomalies_hist events exp expPfx := by
  unfold detect_anomalies_hist
  dsimp only
  split
  · exact List.mem_append_left _ h
  · exact h

/-- The ASNs flagged as suspicious by the anomalies of a list (only
`path_leak` anomalies carry an `ev_suspicious_as`). -/
def susFlagged (l : List AnomalyDetection) : List Nat :=
  l.filterMap (fun a => a.ev_suspicious_as)

/-- The step-level firing condition of the path-leak check (origin
matches, observed path longer than 2 hops, and some stored baseline of
length ≤ 2 has the same endpoints). -/
def stepFires (baselines : List (List Nat)) (e : Nat) (ev : BGPEvent) :
    Prop :=
  ev.origin_asn = some e ∧ ev.as_path.length > 2 ∧
    (baselines.find? (baselineMatches ev.as_path)).isSome = true

instance (baselines : List (List Nat)) (e : Nat) (ev : BGPEvent) :
    Decidable (stepFires baselines e ev) := by
  unfold stepFires; infer_instance

theorem susFlagged_append (l₁ l₂ : List AnomalyDetection) :
    susFlagged (l₁ ++ l₂) = susFlagged l₁ ++ susFlagged l₂ :=
  List.filterMap_append l₁ l₂ _

theorem more_specific_anoms_sus (expPfx : Option String) (ev : BGPEvent) :
    ∀ a ∈ more_specific_anoms expPfx ev, a.ev_suspicious_as = none := by
  intro a ha
  unfold more_specific_anoms at ha
  rcases expPfx with _ | ep
  · exact absurd ha (List.not_mem_nil a)
  · dsimp only at ha
    by_cases hep : ep = ""
    · rw [if_pos hep] at ha; exact absurd ha (List.not_mem_nil a)
    · rw [if_neg hep] at ha
      rcases hm : (ep.splitOn "/")[1]? with _ | mask
      · rw [hm] at ha; exact absurd ha (List.not_mem_nil a)
      · rw [hm] at ha
        dsimp only at ha
        split at ha
        · rw [List.mem_singleton] at ha; subst ha; rfl
        · exact absurd ha (List.not_mem_nil a)

theorem origin_mismatch_anoms_sus (exp : Option Nat) (ev : BGPEvent) :
    ∀ a ∈ origin_mismatch_anoms exp ev, a.ev_suspicious_as = none := by
  intro a ha
  unfold origin_mismatch_anoms at ha
  split at ha
  · split at ha
    · split at ha <;> (rw [List.mem_singleton] at ha; subst ha; rfl)
    · exact absurd ha (List.not_mem_nil a)
  · exact absurd ha (List.not_mem_nil a)

theorem susFlagged_eq_nil_of_all_none {l : List AnomalyDetection}
    (h : ∀ a ∈ l, a.ev_suspicious_as = none) : susFlagged l = [] := by
  induction l with
  | nil => rfl
  | cons a l ih =>
    have ha := h a (List.mem_cons_self a l)
    rw [susFlagged, List.filterMap_cons, ha]
    exact ih (fun b hb => h b (List.mem_cons_of_mem a hb))

/-- Closed form of the flagging fold over a duplicate-free AS list. -/
theorem foldl_flagStep (mk : Nat → AnomalyDetection) :
    ∀ (l : List Nat), l.Nodup →
      ∀ (res : List AnomalyDetection) (sus : List Nat),
      l.foldl (flagStep mk) (res, sus) =
        (res ++ (l.filter (fun x => x ∉ sus)).map mk,
         sus ++ l.filter (fun x => x ∉ sus)) := by
  intro l
  induction l with
  | nil => intro _ res sus; simp
  | cons a l ih =>
    intro hnd res sus
    obtain ⟨ha, hl⟩ := List.nodup_cons.mp hnd
    rw [List.foldl_cons]
    by_cases hmem : a ∈ sus
    · have hstep : flagStep mk (res, sus) a = (res, sus) := by
        rw [flagStep, if_pos hmem]
      rw [hstep, ih hl res sus, List.filter_cons]
      simp [hmem]
    · have hstep : flagStep mk (res, sus) a = (res ++ [mk a], sus ++ [a]) := by
        rw [flagStep, if_neg hmem]
      rw [hstep, ih hl (res ++ [mk a]) (sus ++ [a])]
      have hfeq : l.filter (fun x => decide (x ∉ sus ++ [a])) =
          l.filter (fun x => decide (x ∉ sus)) := by
        apply List.filter_congr
        intro x hx
        have hxa : x ≠ a := fun h => ha (h ▸ hx)
        simp [List.mem_append, hxa]
      have hcons : (a :: l).filter (fun x => decide (x ∉ sus)) =
          a :: l.filter (fun x => decide (x ∉ sus)) := by
        rw [List.filter_cons]
        simp [hmem]
      rw [hfeq, hcons]
      simp [List.append_assoc]

theorem optTruthy_some_of_ne {e : Nat} (he : e ≠ 0) :
    optTruthy (some e) = true := by
  simp [optTruthy, he]

theorem path_leak_step_not_fire (e : Nat) (he : e ≠ 0)
    (baselines : List (List Nat)) (sus : List Nat) (ev : BGPEvent)
    (h : ¬ stepFires baselines e ev) :
    path_leak_step (some e) baselines sus ev = ([], sus) := by
  unfold path_leak_step
  by_cases h1 : ev.origin_asn = some e
  · by_cases h2 : ev.as_path.length > 2
    · rcases hf : baselines.find? (baselineMatches ev.as_path) with _ | b
      · rw [if_pos ⟨optTruthy_some_of_ne he, h1, h2⟩]
      · exact absurd ⟨h1, h2, by rw [hf]; rfl⟩ h
    · rw [if_neg (fun hc => h2 hc.2.2)]
  · rw [if_neg (fun hc => h1 hc.2.1)]

theorem path_leak_step_fire (e : Nat) (he : e ≠ 0)
    (baselines : List (List Nat)) (sus : List Nat) (ev : BGPEvent)
    (b : List Nat)
    (h1 : ev.origin_asn = some e) (h2 : ev.as_path.length > 2)
    (hf : baselines.find? (baselineMatches ev.as_path) = some b) :
    path_leak_step (some e) baselines sus ev =
      (((intermediateASes ev.as_path).filter (fun x => x ∉ sus)).map
          (mkPathLeakAnom ev b),
        sus ++ (intermediateASes ev.as_path).filter (fun x => x ∉ sus)) := by
  unfold path_leak_step
  rw [if_pos ⟨optTruthy_some_of_ne he, h1, h2⟩, hf]
  exact foldl_flagStep (mkPathLeakAnom ev b) _
    (nodup_dedupFirst _) [] sus

theorem susFlagged_map_mkPathLeak (ev : BGPEvent) (b : List Nat)
    (l : List Nat) : susFlagged (l.map (mkPathLeakAnom ev b)) = l := by
  induction l with
  | nil => rfl
  | cons a l ih =>
    rw [List.map_cons, susFlagged, List.filterMap_cons]
    exact congrArg (a :: ·) ih

theorem mkPathLeak_props (ev : BGPEvent) (b : List Nat) (asn : Nat) :
    (mkPathLeakAnom ev b asn).anomaly_type = "path_leak" ∧
    (mkPathLeakAnom ev b asn).severity = "high" :=
  ⟨rfl, rfl⟩

theorem path_leak_step_fst_props (e : Nat) (he : e ≠ 0)
    (baselines : List (List Nat)) (sus : List Nat) (ev : BGPEvent) :
    ∀ a ∈ (path_leak_step (some e) baselines sus ev).1,
      a.anomaly_type = "path_leak" ∧ a.severity = "high" := by
  intro a ha
  by_cases hs : stepFires baselines e ev
  · obtain ⟨h1, h2, h3⟩ := hs
    rcases hb : baselines.find? (baselineMatches ev.as_path) with _ | b
    · rw [hb] at h3; exact absurd h3 (by simp)
    · rw [path_leak_step_fire e he baselines sus ev b h1 h2 hb] at ha
      rcases List.mem_map.mp ha with ⟨asn, _, rfl⟩
      exact mkPathLeak_props ev b asn
  · rw [path_leak_step_not_fire e he baselines sus ev hs] at ha
    exact absurd ha (List.not_mem_nil a)

theorem path_leak_step_snd_fire (e : Nat) (he : e ≠ 0)
    (baselines : List (List Nat)) (sus : List Nat) (ev : BGPEvent)
    (hs : stepFires baselines e ev) :
    (path_leak_step (some e) baselines sus ev).2 =
      sus ++ (intermediateASes ev.as_path).filter (fun x => x ∉ sus) := by
  obtain ⟨h1, h2, h3⟩ := hs
  rcases hb : baselines.find? (baselineMatches ev.as_path) with _ | b
  · rw [hb] at h3; exact absurd h3 (by simp)
  · rw [path_leak_step_fire e he baselines sus ev b h1 h2 hb]

theorem path_leak_step_fst_sus_fire (e : Nat) (he : e ≠ 0)
    (baselines : List (List Nat)) (sus : List Nat) (ev : BGPEvent)
    (hs : stepFires baselines e ev) :
    susFlagged (path_leak_step (some e) baselines sus ev).1 =
      (intermediateASes ev.as_path).filter (fun x => x ∉ sus) := by
  obtain ⟨h1, h2, h3⟩ := hs
  rcases hb : baselines.find? (baselineMatches ev.as_path) with _ | b
  · rw [hb] at h3; exact absurd h3 (by simp)
  · rw [path_leak_step_fire e he baselines sus ev b h1 h2 hb]
    exact susFlagged_map_mkPathLeak ev b _

theorem process_event_skip (exp : Option Nat) (expPfx : Option String)
    (baselines : List (List Nat)) (acc : DetAcc) (ev : BGPEvent)
    (hann : ¬ ev.event_type = "A") :
    process_event exp expPfx baselines acc ev = acc := by
  unfold process_event
  rw [if_pos hann]

theorem process_event_anoms_announce (exp : Option Nat)
    (expPfx : Option String) (baselines : List (List Nat)) (acc : DetAcc)
    (ev : BGPEvent) (hann : ev.event_type = "A") :
    (process_event exp expPfx baselines acc ev).anomalies =
      acc.anomalies ++ more_specific_anoms expPfx ev ++
        origin_mismatch_anoms exp ev ++
        (path_leak_step exp baselines acc.suspicious ev).1 := by
  unfold process_event
  rw [if_neg (not_not.mpr hann)]

theorem process_event_sus_announce (exp : Option Nat)
    (expPfx : Option String) (baselines : List (List Nat)) (acc : DetAcc)
    (ev : BGPEvent) (hann : ev.event_type = "A") :
    (process_event exp expPfx baselines acc ev).suspicious =
      (path_leak_step exp baselines acc.suspicious ev).2 := by
  unfold process_event
  rw [if_neg (not_not.mpr hann)]

/-- One step of the main loop preserves the flagged-AS invariant and adds
exactly the firing event's unseen intermediate ASNs. -/
theorem process_event_invariant (e : Nat) (he : e ≠ 0)
    (expPfx : Option String) (baselines : List (List Nat)) (acc : DetAcc)
    (ev : BGPEvent)
    (hflag : susFlagged acc.anomalies = acc.suspicious)
    (hnd : acc.suspicious.Nodup)
    (hprops : ∀ a ∈ acc.anomalies, a.ev_suspicious_as ≠ none →
      a.anomaly_type = "path_leak" ∧ a.severity = "high") :
    susFlagged (process_event (some e) expPfx baselines acc ev).anomalies =
        (process_event (some e) expPfx baselines acc ev).suspicious ∧
    (process_event (some e) expPfx baselines acc ev).suspicious.Nodup ∧
    (∀ a ∈ (process_event (some e) expPfx baselines acc ev).anomalies,
      a.ev_suspicious_as ≠ none →
      a.anomaly_type = "path_leak" ∧ a.severity = "high") ∧
    ∀ asn, asn ∈ (process_event (some e) expPfx baselines acc ev).suspicious ↔
      asn ∈ acc.suspicious ∨
        (ev.event_type = "A" ∧ stepFires baselines e ev ∧
          asn ∈ intermediateASes ev.as_path) := by
  by_cases hann : ev.event_type = "A"
  · rw [process_event_anoms_announce _ _ _ _ _ hann,
      process_event_sus_announce _ _ _ _ _ hann]
    by_cases hs : stepFires baselines e ev
    · have hsnd := path_leak_step_snd_fire e he baselines acc.suspicious ev hs
      have hfst := path_leak_step_fst_sus_fire e he baselines acc.suspicious
        ev hs
      refine ⟨?_, ?_, ?_, ?_⟩
      · rw [susFlagged_append, susFlagged_append, susFlagged_append,
          susFlagged_eq_nil_of_all_none (more_specific_anoms_sus expPfx ev),
          susFlagged_eq_nil_of_all_none (origin_mismatch_anoms_sus _ ev),
          hflag, hfst, hsnd]
        simp
      · rw [hsnd]
        refine List.Nodup.append hnd
          (List.Nodup.filter _ (nodup_dedupFirst _)) ?_
        intro x hx hxF
        exact absurd hx (by simpa using (List.mem_filter.mp hxF).2)
      · intro a ha hsome
        rcases List.mem_append.mp ha with ha' | hpl
        · rcases List.mem_append.mp ha' with ha'' | hom
          · rcases List.mem_append.mp ha'' with hold | hms
            · exact hprops a hold hsome
            · exact absurd (more_specific_anoms_sus expPfx ev a hms) hsome
          · exact absurd (origin_mismatch_anoms_sus _ ev a hom) hsome
        · exact path_leak_step_fst_props e he baselines acc.suspicious ev
            a hpl
      · intro asn
        rw [hsnd, List.mem_append, List.mem_filter]
        constructor
        · rintro (hx | ⟨hin, -⟩)
          · exact Or.inl hx
          · exact Or.inr ⟨hann, hs, hin⟩
        · rintro (hx | ⟨-, -, hin⟩)
          · exact Or.inl hx
          · by_cases hsus : asn ∈ acc.suspicious
            · exact Or.inl hsus
            · exact Or.inr ⟨hin, by simpa using hsus⟩
    · have hstep := path_leak_step_not_fire e he baselines acc.suspicious
        ev hs
      refine ⟨?_, ?_, ?_, ?_⟩
      · rw [susFlagged_append, susFlagged_append, susFlagged_append,
          susFlagged_eq_nil_of_all_none (more_specific_anoms_sus expPfx ev),
          susFlagged_eq_nil_of_all_none (origin_mismatch_anoms_sus _ ev),
          hflag, hstep]
        simp [susFlagged]
      · rw [hstep]; exact hnd
      · intro a ha hsome
        rcases List.mem_append.mp ha with ha' | hpl
        · rcases List.mem_append.mp ha' with ha'' | hom
          · rcases List.mem_append.mp ha'' with hold | hms
            · exact hprops a hold hsome
            · exact absurd (more_specific_anoms_sus expPfx ev a hms) hsome
          · exact absurd (origin_mismatch_anoms_sus _ ev a hom) hsome
        · rw [hstep] at hpl
          exact absurd hpl (List.not_mem_nil a)
      · intro asn
        rw [hstep]
        simp [hs]
  · rw [process_event_skip _ _ _ _ _ hann]
    exact ⟨hflag, hnd, hprops, fun asn => by simp [hann]⟩

/-- The main-loop invariant, folded over an event list. -/
theorem detect_fold_invariant (e : Nat) (he : e ≠ 0)
    (expPfx : Option String) (baselines : List (List Nat)) :
    ∀ (evs : List BGPEvent) (acc : DetAcc),
      susFlagged acc.anomalies = acc.suspicious →
      acc.suspicious.Nodup →
      (∀ a ∈ acc.anomalies, a.ev_suspicious_as ≠ none →
        a.anomaly_type = "path_leak" ∧ a.severity = "high") →
      susFlagged ((evs.foldl (process_event (some e) expPfx baselines)
            acc).anomalies) =
          (evs.foldl (process_event (some e) expPfx baselines)
            acc).suspicious ∧
      (evs.foldl (process_event (some e) expPfx baselines)
        acc).suspicious.Nodup ∧
      (∀ a ∈ (evs.foldl (process_event (some e) expPfx baselines)
          acc).anomalies,
        a.ev_suspicious_as ≠ none →
        a.anomaly_type = "path_leak" ∧ a.severity = "high") ∧
      ∀ asn, asn ∈ (evs.foldl (process_event (some e) expPfx baselines)
          acc).suspicious ↔
        asn ∈ acc.suspicious ∨
          ∃ ev ∈ evs, ev.event_type = "A" ∧ stepFires baselines e ev ∧
            asn ∈ intermediateASes ev.as_path := by
  intro evs
  induction evs with
  | nil =>
    intro acc h1 h2 h3
    exact ⟨h1, h2, h3, fun asn => by simp⟩
  | cons ev evs ih =>
    intro acc h1 h2 h3
    rw [List.foldl_cons]
    obtain ⟨s1, s2, s3, s4⟩ :=
      process_event_invariant e he expPfx baselines acc ev h1 h2 h3
    obtain ⟨f1, f2, f3, f4⟩ :=
      ih (process_event (some e) expPfx baselines acc ev) s1 s2 s3
    refine ⟨f1, f2, f3, fun asn => ?_⟩
    rw [f4 asn]
    constructor
    · rintro (hx | ⟨ev', hmem, hev'⟩)
      · rcases (s4 asn).mp hx with hx' | hev
        · exact Or.inl hx'
        · exact Or.inr ⟨ev, List.mem_cons_self ev evs, hev⟩
      · exact Or.inr ⟨ev', List.mem_cons_of_mem ev hmem, hev'⟩
    · rintro (hx | ⟨ev', hmem, hev'⟩)
      · exact Or.inl ((s4 asn).mpr (Or.inl hx))
      · rcases List.mem_cons.mp hmem with rfl | hmem'
        · exact Or.inl ((s4 asn).mpr (Or.inr hev'))
        · exact Or.inr ⟨ev', hmem', hev'⟩

/-- `detect_anomalies_hist` is the fold result plus a (possibly empty)
tail of `origin_change` anomalies, none of which carries a suspicious
AS. -/
theorem detect_anomalies_hist_decompose (events : List BGPEvent)
    (exp : Option Nat) (expPfx : Option String) :
    ∃ tail, detect_anomalies_hist events exp expPfx =
      (events.foldl (process_event exp expPfx (baseline_pathsOf events))
        {}).anomalies ++ tail ∧
      ∀ a ∈ tail, a.ev_suspicious_as = none := by
  unfold detect_anomalies_hist
  dsimp only
  split
  · refine ⟨_, rfl, ?_⟩
    intro a ha
    rcases List.mem_map.mp ha with ⟨o, -, rfl⟩
    rfl
  · exact ⟨[], (List.append_nil _).symm, by simp⟩

/-- The condition under which the source's path-leak check fires for an
event of a run: announcement, origin equal to the expected origin, path
longer than 2 hops, and some stored baseline path — necessarily of
length ≤ 2, by `baselineMatches` — with the same first and last AS. -/
def pathLeakFires (events : List BGPEvent) (e : Nat) (ev : BGPEvent) :
    Prop :=
  ev.event_type = "A" ∧ ev.origin_asn = some e ∧ ev.as_path.length > 2 ∧
    ((baseline_pathsOf events).find?
      (baselineMatches ev.as_path)).isSome = true

theorem origin_mismatch_anoms_spec (e o : Nat) (ev : BGPEvent)
    (horig : ev.origin_asn = some o) (he : e ≠ 0) (ho : o ≠ 0)
    (hne : o ≠ e) :
    origin_mismatch_anoms (some e) ev =
      if e ∈ ev.as_path then
        [{ anomaly_type := "leak", timestamp := ev.timestamp, pfx := ev.pfx,
           description := "Route leak: expected origin still in path",
           severity := "high", ev_as_path := ev.as_path,
           ev_leaker := some o }]
      else
        [{ anomaly_type := "hijack", timestamp := ev.timestamp,
           pfx := ev.pfx, description := "Origin mismatch",
           severity := "critical", ev_as_path := ev.as_path,
           ev_expected := some e, ev_actual := some o }] := by
  unfold origin_mismatch_anoms
  rw [horig]
  dsimp only
  rw [if_pos ⟨he, ho, hne⟩]

/-! ## Specification-side definitions (used to state refinement claims) -/

/-- The issue counter exactly as §4.2 of the specification words it. -/
def specIssueCount (footprint : RoutingFootprint) (rpki : RPKIStatus)
    (connectivity : ConnectivityProfile) : Nat :=
  (if rpki.invalid_prefixes > 0 then 2
   else if rpki.has_roas = false then 1 else 0) +
  (if footprint.upstream_count < 2 then 1 else 0) +
  (if connectivity.ix_count = 1 ∨
      (connectivity.ix_count = 0 ∧ footprint.total_prefixes > 0) then 1
   else 0)

/-- The issues → health mapping as the specification words it
(`≥ 3 → critical; == 2 → warning; == 1 → warning; == 0 → healthy`). -/
def specHealthOfIssues (issues : Nat) : HealthStatus :=
  if issues ≥ 3 then HealthStatus.critical
  else if issues = 2 then HealthStatus.warning
  else if issues = 1 then HealthStatus.warning
  else HealthStatus.healthy

/-- Severity rank for the order low < medium < high < critical. -/
def sevRank : RiskLevel → Nat
  | RiskLevel.low => 0
  | RiskLevel.medium => 1
  | RiskLevel.high => 2
  | RiskLevel.critical => 3

/-- Maximum of two risk levels under `sevRank`. -/
def maxRiskLevel (a b : RiskLevel) : RiskLevel :=
  if sevRank a < sevRank b then b else a

/-- The maximum severity present in an anomaly list, with bottom `low`. -/
def maxSeverity (l : List Anomaly) : RiskLevel :=
  l.foldr (fun a acc => maxRiskLevel a.severity acc) RiskLevel.low

/-! ## Helper lemmas -/

theorem assess_health_eq_spec (f : RoutingFootprint) (r : RPKIStatus)
    (c : ConnectivityProfile) :
    assess_health f r c = specHealthOfIssues (specIssueCount f r c) := by
  by_cases h1 : r.invalid_prefixes > 0 <;>
    by_cases h2 : r.has_roas <;>
    by_cases h3 : f.upstream_count < 2 <;>
    by_cases h4 : c.ix_count = 1 <;>
    by_cases h5 : c.ix_count = 0 ∧ f.total_prefixes > 0 <;>
    simp [assess_health, specIssueCount, specHealthOfIssues, h1, h2, h3, h4,
      h5]

theorem assess_health_cases (f : RoutingFootprint) (r : RPKIStatus)
    (c : ConnectivityProfile) :
    assess_health f r c = HealthStatus.healthy ∨
      assess_health f r c = HealthStatus.warning ∨
      assess_health f r c = HealthStatus.critical := by
  unfold assess_health
  split_ifs <;> simp

theorem get_profile_some (asn : Nat) (inp : ProfileInputs) (p : ASNProfile)
    (h : get_profile asn inp = some p) :
    p.health =
      assess_health (get_routing_footprint inp.prefixes inp.neighbours)
        (get_rpki_status inp.rpkiData)
        (get_connectivity_profile inp.presence inp.connNetwork
          inp.upstreams) ∧
    p.footprint = get_routing_footprint inp.prefixes inp.neighbours ∧
    p.rpki = get_rpki_status inp.rpkiData ∧
    p.connectivity =
      get_connectivity_profile inp.presence inp.connNetwork inp.upstreams := by
  unfold get_profile at h
  rcases hid : get_identity asn inp.overview inp.identNetwork inp.identOrg with
    _ | ident
  · rw [hid] at h; exact absurd h (by simp)
  · rw [hid] at h
    simp only [Option.some.injEq] at h
    subst h
    exact ⟨rfl, rfl, rfl, rfl⟩

/-! ## Claim theorems -/

/-- **C1.** The derived risk level and recommendation of a completed
peer-risk assessment are determined by the total score, with boundaries
inclusive on the upper tier: total ≥ 80 → LOW/"RECOMMENDED";
60 ≤ total < 80 → MODERATE/"ACCEPTABLE"; 40 ≤ total < 60 →
ELEVATED/"CAUTION"; total < 40 → HIGH/"NOT RECOMMENDED"; in particular
80 maps to LOW and 79 to MODERATE. -/
theorem c1_risk_level_thresholds :
    ∀ total : Nat,
      (total ≥ 80 → riskClassification total = ("LOW", "RECOMMENDED")) ∧
      (60 ≤ total → total < 80 →
        riskClassification total = ("MODERATE", "ACCEPTABLE")) ∧
      (40 ≤ total → total < 60 →
        riskClassification total = ("ELEVATED", "CAUTION")) ∧
      (total < 40 → riskClassification total = ("HIGH", "NOT RECOMMENDED")) ∧
      riskClassification 80 = ("LOW", "RECOMMENDED") ∧
      riskClassification 79 = ("MODERATE", "ACCEPTABLE") := by
  intro total
  refine ⟨?_, ?_, ?_, ?_, by decide, by decide⟩ <;> intros <;>
    simp only [riskClassification] <;> split_ifs <;> first | rfl | omega

/-- Witness for C1 at concrete totals in the four tiers. -/
theorem c1_risk_level_thresholds_witness :
    riskClassification 85 = ("LOW", "RECOMMENDED") ∧
    riskClassification 62 = ("MODERATE", "ACCEPTABLE") ∧
    riskClassification 45 = ("ELEVATED", "CAUTION") ∧
    riskClassification 39 = ("HIGH", "NOT RECOMMENDED") :=
  ⟨(c1_risk_level_thresholds 85).1 (by norm_num),
   (c1_risk_level_thresholds 62).2.1 (by norm_num) (by norm_num),
   (c1_risk_level_thresholds 45).2.2.1 (by norm_num) (by norm_num),
   (c1_risk_level_thresholds 39).2.2.2.1 (by norm_num)⟩

/-- The analysis of claim C2's concrete scenario: provider returns the
raw path strings `100 200 300`, `100 200 300`, `400 200 300`. -/
def c2Analysis : PathAnalysis :=
  analyze_paths "1.2.3.0/24" ["100 200 300", "100 200 300", "400 200 300"]

/-- **C2 (counterexample).** On the claim's scenario the common-transit
list is exactly `[200]`: it does **not** contain 100, because 100 only
ever occurs as the first (observer) element of a path and
`_find_common_transit` strips the first and last element of every path
before counting. -/
theorem c2_counterexample :
    c2Analysis.common_transit = [200] ∧
    (100 ∈ c2Analysis.common_transit) = False := by
  have h : c2Analysis.common_transit = [200] := rfl
  exact ⟨h, by rw [h]; exact eq_false (by decide)⟩

/-- **C2 (amended).** On the claim's scenario: path_count = 3, two unique
paths, origin_asns = {300}, min = max = 3, and common_transit = [200]
(200 appears in 3/3 raw paths; 100 and 400 are observer hops, stripped
before counting, so neither appears). -/
theorem c2_path_analysis_values :
    c2Analysis.path_count = 3 ∧
    c2Analysis.unique_paths.length = 2 ∧
    c2Analysis.origin_asns = [300] ∧
    c2Analysis.min_path_length = 3 ∧
    c2Analysis.max_path_length = 3 ∧
    c2Analysis.common_transit = [200] := by
  refine ⟨rfl, rfl, rfl, rfl, rfl, rfl⟩

/-- **C4.** `GetProfile` derives `HealthStatus` as a deterministic
function of the issue count over the fetched facets, exactly as the
specification words it: +2 if any prefix is RPKI-invalid, else +1 if no
ROAs; +1 if upstream count < 2; +1 if IX count is 1, or 0 with announced
prefixes; issues ≥ 3 → critical, = 2 → warning, = 1 → warning,
= 0 → healthy. -/
theorem c4_health_from_issue_count :
    (∀ (f : RoutingFootprint) (r : RPKIStatus) (c : ConnectivityProfile),
      assess_health f r c = specHealthOfIssues (specIssueCount f r c)) ∧
    ∀ (asn : Nat) (inp : ProfileInputs) (p : ASNProfile),
      get_profile asn inp = some p →
      p.health =
        specHealthOfIssues (specIssueCount p.footprint p.rpki p.connectivity) := by
  refine ⟨assess_health_eq_spec, fun asn inp p h => ?_⟩
  obtain ⟨hh, hf, hr, hc⟩ := get_profile_some asn inp p h
  rw [hh, hf, hr, hc, assess_health_eq_spec]

/-- The profile produced by `get_profile` when every provider call fails
(PeeringDB failing with its NotFound error): all facets are zero values
and the derived health is `warning`. -/
def allFailProfile : ASNProfile :=
  { identity := { asn := 65000 }
    footprint := {}
    rpki := {}
    connectivity := {}
    atlas := {}
    health := HealthStatus.warning }

/-- Witness for C4: the all-failure profile instantiates the second
conjunct. -/
theorem c4_health_from_issue_count_witness :
    get_profile 65000 {} = some allFailProfile ∧
    allFailProfile.health =
      specHealthOfIssues
        (specIssueCount allFailProfile.footprint allFailProfile.rpki
          allFailProfile.connectivity) :=
  ⟨rfl, c4_health_from_issue_count.2 65000 {} allFailProfile rfl⟩

/-- **C5 (counterexample).** When the target is not registered in
PeeringDB the `"policy"` key is absent, `dict.get` supplies the truthy
default string `"Unknown"`, and the Policy category scores 5 — not 0 as
the claim states for an absent policy. -/
theorem c5_counterexample : policy_category none = (5, false) := by decide

/-- **C5 (amended).** Policy category scores: 10 for "open", 7 for
"selective", 3 plus a warning for "restrictive" (all case-insensitive),
5 for any other non-empty policy string **including** the `"Unknown"`
default used when the PeeringDB lookup failed (e.g. target not
registered), and 0 only when the lookup succeeded with an empty policy
string. -/
theorem c5_policy_scores :
    ∀ netPol : Option String,
      policy_category netPol =
        match netPol with
        | none => (5, false)
        | some p =>
          if p = "" then (0, false)
          else if p.data.map Char.toLower = "open".data then (10, false)
          else if p.data.map Char.toLower = "selective".data then (7, false)
          else if p.data.map Char.toLower = "restrictive".data then (3, true)
          else (5, false) := by
  intro netPol
  cases netPol with
  | none => decide
  | some p =>
    by_cases hp : p = ""
    · subst hp; simp [policy_category]
    · simp only [policy_category, Option.getD_some]
      rw [if_pos hp, if_neg hp]

/-- All-PeeringDB-failure profile inputs for C7: the network lookup fails
with `PeeringDBNotFoundError`, the presence and connectivity-network
calls raise, while the RIPEstat upstream call succeeds with `[174]`. -/
def c7InputsNotFound : ProfileInputs :=
  { identNetwork := PDBRes.notFound, upstreams := some [174] }

/-- Profile inputs for C7 where the PeeringDB network lookup inside
`get_identity` fails with a non-NotFound exception. -/
def c7InputsTransient : ProfileInputs :=
  { identNetwork := PDBRes.otherError }

/-- **C7 (counterexample).** With every PeeringDB call failing
(NotFound) but RIPEstat returning upstream `[174]`, the returned
`ConnectivityProfile` is **not** the documented zero value: its
`top_upstreams` list is `[174]`, populated from RIPEstat.  Moreover,
when the PeeringDB network lookup fails with any non-NotFound error,
`get_identity` does not catch it and `get_profile` raises instead of
returning a profile at all. -/
theorem c7_counterexample :
    (get_profile 65000 c7InputsNotFound).map
        (fun p => p.connectivity.top_upstreams) = some [174] ∧
    get_profile 65000 c7InputsTransient = none := by
  constructor
  · rfl
  · rfl

/-- **C7 (amended).** If every PeeringDB call fails with its NotFound
error during `GetProfile`, a profile is still returned; its
`ConnectivityProfile` facet has all PeeringDB-derived fields at their
zero values (ix_count = 0, facility_count = 0, empty `ixes`, empty
policy and IRR strings), while `top_upstreams` is filled from the
RIPEstat topology capability (so it is empty only if that call also
fails); the health derivation completes, yielding one of
healthy/warning/critical.  If instead a PeeringDB call inside the
identity fetch fails with a non-NotFound error, it propagates and
`GetProfile` raises. -/
theorem c7_pdb_failure_connectivity :
    ∀ (asn : Nat) (overview : Option ASOverview)
      (prefixes : Option AnnouncedPrefixes)
      (neighbours : Option ASNeighbours)
      (rpkiData : Option (Nat × Nat × Nat)) (upstreams : Option (List Nat))
      (atlasData : Option AtlasCoverage),
      (∃ p, get_profile asn
          { overview := overview, identNetwork := PDBRes.notFound,
            identOrg := none, prefixes := prefixes,
            neighbours := neighbours, rpkiData := rpkiData,
            presence := none, connNetwork := none, upstreams := upstreams,
            atlasData := atlasData } = some p ∧
        p.connectivity.ix_count = 0 ∧
        p.connectivity.facility_count = 0 ∧
        p.connectivity.ixes = [] ∧
        p.connectivity.peering_policy = "" ∧
        p.connectivity.irr_as_set = "" ∧
        p.connectivity.top_upstreams = (upstreams.getD []).take 5 ∧
        (p.health = HealthStatus.healthy ∨
          p.health = HealthStatus.warning ∨
          p.health = HealthStatus.critical)) ∧
      get_profile asn
        { overview := overview, identNetwork := PDBRes.otherError,
          identOrg := none, prefixes := prefixes, neighbours := neighbours,
          rpkiData := rpkiData, presence := none, connNetwork := none,
          upstreams := upstreams, atlasData := atlasData } = none := by
  intro asn overview prefixes neighbours rpkiData upstreams atlasData
  constructor
  · refine ⟨_, rfl, ?_, ?_, ?_, ?_, ?_, ?_, ?_⟩ <;>
      first
        | (cases upstreams <;> rfl)
        | exact assess_health_cases _ _ _
  · rfl

/-- The anomaly used for the C8 counterexample: one `unusual_path_length`
finding at severity `low` (as emitted by the excessive-prepending
check). -/
def lowSeverityAnomaly : Anomaly :=
  { type := AnomalyType.unusual_path_length
    severity := RiskLevel.low
    resource := "192.0.2.0/24"
    description := "Excessive AS prepending detected" }

/-- **C8 (counterexample).** A report with an empty anomaly list carries
risk level `low` — the `RiskLevel` enum has no "none" member and the
model default is `LOW` — and a report containing one low-severity
anomaly carries the *same* level, so the two are not distinct as the
claim requires. -/
theorem c8_counterexample :
    (detect_anomalies_report "192.0.2.0/24" [] [] []).risk_level =
      RiskLevel.low ∧
    (detect_anomalies_report "192.0.2.0/24" [] []
        [lowSeverityAnomaly]).risk_level = RiskLevel.low := by
  constructor <;> rfl

/-- **C8 (amended).** The report's `risk_level` is the maximum severity
among its anomalies under critical > high > medium > low with **bottom
`low`** (the model's `RiskLevel` has no "none"): an empty report and a
report with only low-severity anomalies both carry `low`. -/
theorem c8_risk_level_is_max_severity :
    ∀ (resource : String) (m r p : List Anomaly),
      (detect_anomalies_report resource m r p).anomalies = m ++ r ++ p ∧
      (detect_anomalies_report resource m r p).risk_level =
        maxSeverity (m ++ r ++ p) := by
  intro resource m r p
  refine ⟨rfl, ?_⟩
  show reportRiskLevel (m ++ r ++ p) = maxSeverity (m ++ r ++ p)
  generalize m ++ r ++ p = l
  induction l with
  | nil => decide
  | cons a l ih =>
    have hstep : maxSeverity (a :: l) = maxRiskLevel a.severity (maxSeverity l) :=
      rfl
    rw [hstep, ← ih]
    rcases h : a.severity <;>
      by_cases hc : l.any (fun b => b.severity = RiskLevel.critical) <;>
      by_cases hh : l.any (fun b => b.severity = RiskLevel.high) <;>
      by_cases hm : l.any (fun b => b.severity = RiskLevel.medium) <;>
      simp [reportRiskLevel, maxRiskLevel, sevRank, h, hc, hh, hm,
        List.any_cons]

/-- **C10.** `GetProfile` never returns a profile whose health is
`unknown`: whenever it returns a profile at all, the health is one of
healthy/warning/critical; and with every data source failing (all facet
inputs at their failure values) the returned profile reports `warning`
(two issues: no ROAs and fewer than two upstreams). -/
theorem c10_health_never_unknown :
    (∀ (asn : Nat) (inp : ProfileInputs) (p : ASNProfile),
      get_profile asn inp = some p →
      (p.health = HealthStatus.healthy ∨
        p.health = HealthStatus.warning ∨
        p.health = HealthStatus.critical)) ∧
    ∀ p : ASNProfile, get_profile 65000 {} = some p →
      p.health = HealthStatus.warning := by
  constructor
  · intro asn inp p h
    obtain ⟨hh, -, -, -⟩ := get_profile_some asn inp p h
    rw [hh]
    exact assess_health_cases _ _ _
  · intro p h
    have : (some allFailProfile : Option ASNProfile) = some p := h
    simp only [Option.some.injEq] at this
    subst this
    rfl

/-- **C3.** In historical anomaly detection, every announcement event
whose (truthy) observed origin differs from the (truthy) expected origin
is classified as a `leak` anomaly at severity `high` when the expected
origin still appears in the event's AS path, and otherwise as a `hijack`
anomaly at severity `critical`. -/
theorem c3_origin_mismatch_classification :
    ∀ (events : List BGPEvent) (expPfx : Option String) (e : Nat)
      (ev : BGPEvent) (o : Nat),
      ev ∈ events → ev.event_type = "A" → ev.origin_asn = some o →
      e ≠ 0 → o ≠ 0 → o ≠ e →
      ∃ a ∈ detect_anomalies_hist events (some e) expPfx,
        a.timestamp = ev.timestamp ∧ a.ev_as_path = ev.as_path ∧
        (if e ∈ ev.as_path
         then a.anomaly_type = "leak" ∧ a.severity = "high"
         else a.anomaly_type = "hijack" ∧ a.severity = "critical") := by
  intro events expPfx e ev o hmem hann horig he ho hne
  have hrec : ∀ a ∈ origin_mismatch_anoms (some e) ev,
      a ∈ detect_anomalies_hist events (some e) expPfx := fun a ha =>
    mem_detect_anomalies_hist_of_foldl (some e) expPfx events a
      (origin_mismatch_in_foldl (some e) expPfx (baseline_pathsOf events)
        events {} ev hmem hann a ha)
  have heq := origin_mismatch_anoms_spec e o ev horig he ho hne
  by_cases hp : e ∈ ev.as_path
  · rw [if_pos hp] at heq
    exact ⟨_, hrec _ (heq ▸ List.mem_singleton_self _), rfl, rfl,
      by rw [if_pos hp]; exact ⟨rfl, rfl⟩⟩
  · rw [if_neg hp] at heq
    exact ⟨_, hrec _ (heq ▸ List.mem_singleton_self _), rfl, rfl,
      by rw [if_neg hp]; exact ⟨rfl, rfl⟩⟩

/-- The claim's backtest scenario: AS 13335 is the sole origin for 100
announcements; one further event shows origin 267613 with 13335 still in
its path. -/
def c3BaselineEvent (i : Nat) : BGPEvent :=
  { timestamp := i, event_type := "A", pfx := "1.1.1.0/24",
    as_path := [3356, 13335], origin_asn := some 13335,
    collector := "rrc00" }

def c3LeakEvent : BGPEvent :=
  { timestamp := 100, event_type := "A", pfx := "1.1.1.0/24",
    as_path := [3356, 13335, 267613], origin_asn := some 267613,
    collector := "rrc00" }

def c3Events : List BGPEvent :=
  (List.range 100).map c3BaselineEvent ++ [c3LeakEvent]

/-- Witness for C3 on the claim's backtest scenario: the single deviating
event is classified as a leak (13335 is still in its path), not a
hijack. -/
theorem c3_origin_mismatch_classification_witness :
    ∃ a ∈ detect_anomalies_hist c3Events (some 13335) none,
      a.timestamp = c3LeakEvent.timestamp ∧
      a.ev_as_path = c3LeakEvent.as_path ∧
      (if 13335 ∈ c3LeakEvent.as_path
       then a.anomaly_type = "leak" ∧ a.severity = "high"
       else a.anomaly_type = "hijack" ∧ a.severity = "critical") :=
  c3_origin_mismatch_classification c3Events none 13335 c3LeakEvent 267613
    (by simp [c3Events]) rfl rfl (by decide) (by decide) (by decide)

/-- A length-3 announcement enters the baseline set but can never satisfy
the `len(baseline) <= 2` comparison of the path-leak check. -/
def c6BaselineEvent3 : BGPEvent :=
  { timestamp := 0, event_type := "A", pfx := "10.0.0.0/24",
    as_path := [10, 20, 30], origin_asn := some 30, collector := "c" }

/-- An announcement with the expected origin whose path is longer than
the stored baseline `[10, 20, 30]` and shares its endpoints, with AS 25
in the gap. -/
def c6GapEvent : BGPEvent :=
  { timestamp := 1, event_type := "A", pfx := "10.0.0.0/24",
    as_path := [10, 20, 25, 30], origin_asn := some 30, collector := "c" }

/-- **C6 (counterexample).** The claim's firing condition holds — the
baseline `[10, 20, 30]` (an announced path of length ≤ 3) is stored, the
observed path `[10, 20, 25, 30]` has the expected origin 30, the same
first and last AS, is strictly longer, and AS 25 appears in its gap —
yet the run produces **no** anomaly at all: the path-leak comparison
requires a baseline of length ≤ 2, so a length-3 baseline never
matches. -/
theorem c6_counterexample :
    [10, 20, 30] ∈ baseline_pathsOf [c6BaselineEvent3, c6GapEvent] ∧
    c6GapEvent.origin_asn = some 30 ∧
    c6GapEvent.as_path.length > ([10, 20, 30] : List Nat).length ∧
    c6GapEvent.as_path.head? = ([10, 20, 30] : List Nat).head? ∧
    c6GapEvent.as_path.getLast? = ([10, 20, 30] : List Nat).getLast? ∧
    25 ∈ c6GapEvent.as_path ∧
    detect_anomalies_hist [c6BaselineEvent3, c6GapEvent] (some 30) none =
      [] := by
  refine ⟨?_, rfl, ?_, rfl, rfl, ?_, ?_⟩ <;> decide

/-- **C6 (amended).** For a run with (truthy) expected origin `e`: the
ASNs flagged by `path_leak` anomalies are pairwise distinct (each AS is
flagged at most once across the whole run); every anomaly carrying a
suspicious AS is a `path_leak` at severity `high`; and an AS is flagged
**iff** some announcement of the run has origin `e`, a path longer than
2 hops whose endpoints match a stored baseline path of length ≤ 2 (the
comparison ignores the length-3 baselines the first pass also stores),
and the AS among its intermediate hops (`set(path[1:-1])` — all
intermediate ASes of the observed path, not only those absent from the
baseline). -/
theorem c6_path_leak_flagging :
    ∀ (events : List BGPEvent) (expPfx : Option String) (e : Nat), e ≠ 0 →
      (susFlagged (detect_anomalies_hist events (some e) expPfx)).Nodup ∧
      (∀ a ∈ detect_anomalies_hist events (some e) expPfx,
        a.ev_suspicious_as ≠ none →
        a.anomaly_type = "path_leak" ∧ a.severity = "high") ∧
      ∀ asn : Nat,
        asn ∈ susFlagged (detect_anomalies_hist events (some e) expPfx) ↔
          ∃ ev ∈ events, pathLeakFires events e ev ∧
            asn ∈ intermediateASes ev.as_path := by
  intro events expPfx e he
  obtain ⟨tail, hdec, htail⟩ :=
    detect_anomalies_hist_decompose events (some e) expPfx
  obtain ⟨f1, f2, f3, f4⟩ :=
    detect_fold_invariant e he expPfx (baseline_pathsOf events) events {}
      rfl List.nodup_nil (by simp)
  have hchain : susFlagged (detect_anomalies_hist events (some e) expPfx) =
      (events.foldl
        (process_event (some e) expPfx (baseline_pathsOf events))
        {}).suspicious := by
    rw [hdec, susFlagged_append, susFlagged_eq_nil_of_all_none htail,
      List.append_nil, f1]
  refine ⟨?_, ?_, ?_⟩
  · rw [hchain]; exact f2
  · intro a ha hsome
    rcases List.mem_append.mp (hdec ▸ ha) with hfold | htl
    · exact f3 a hfold hsome
    · exact absurd (htail a htl) hsome
  · intro asn
    rw [hchain, f4 asn]
    constructor
    · rintro (hx | ⟨ev, hm, hA, hsf, hint⟩)
      · exact absurd hx (List.not_mem_nil asn)
      · exact ⟨ev, hm, ⟨hA, hsf.1, hsf.2.1, hsf.2.2⟩, hint⟩
    · rintro ⟨ev, hm, ⟨hA, h1, h2, h3⟩, hint⟩
      exact Or.inr ⟨ev, hm, hA, ⟨h1, h2, h3⟩, hint⟩

/-- A length-2 baseline that the path-leak comparison does match. -/
def c6ShortBaselineEvent : BGPEvent :=
  { timestamp := 0, event_type := "A", pfx := "10.0.0.0/24",
    as_path := [10, 30], origin_asn := some 30, collector := "c" }

def c6Events : List BGPEvent := [c6ShortBaselineEvent, c6GapEvent]

/-- Witness for C6 (amended) on a run with a matching length-2 baseline:
AS 20 is flagged because the injected event fires against baseline
`[10, 30]`. -/
theorem c6_path_leak_flagging_witness :
    (susFlagged (detect_anomalies_hist c6Events (some 30) none)).Nodup ∧
    (20 ∈ susFlagged (detect_anomalies_hist c6Events (some 30) none) ↔
      ∃ ev ∈ c6Events, pathLeakFires c6Events 30 ev ∧
        20 ∈ intermediateASes ev.as_path) :=
  ⟨(c6_path_leak_flagging c6Events none 30 (by decide)).1,
   (c6_path_leak_flagging c6Events none 30 (by decide)).2.2 20⟩

theorem check_unusual_paths_props (resource : String)
    (analysis : PathAnalysis) :
    ((check_unusual_paths resource analysis).filter
        (fun a => a.severity = RiskLevel.medium)).length =
      (if analysis.max_path_length > 10 then 1 else 0) ∧
    ((check_unusual_paths resource analysis).filter
        (fun a => a.severity = RiskLevel.low)).length =
      (if analysis.unique_paths.any (fun p => p.prepend_count > 5) then 1
       else 0) ∧
    (∀ a ∈ check_unusual_paths resource analysis,
      a.type = AnomalyType.unusual_path_length) ∧
    ∀ p, analysis.unique_paths.find? (fun q => q.prepend_count > 5) = some p →
      ∃ a ∈ check_unusual_paths resource analysis,
        a.severity = RiskLevel.low ∧ a.details_path = p.path ∧
          a.details_prepend_count = some p.prepend_count := by
  rcases hf : analysis.unique_paths.find? (fun q => q.prepend_count > 5) with
    _ | p
  · have hany : analysis.unique_paths.any (fun p => p.prepend_count > 5) =
        false := by
      rw [List.any_eq_false]
      intro x hx
      exact List.find?_eq_none.mp hf x hx
    by_cases hmax : analysis.max_path_length > 10 <;>
      simp [check_unusual_paths, hmax, hf, hany]
  · have hmem := List.mem_of_find?_eq_some hf
    have hpred : p.prepend_count > 5 := by
      have := List.find?_some hf
      simpa using this
    have hany : analysis.unique_paths.any (fun p => p.prepend_count > 5) =
        true :=
      List.any_eq_true.mpr ⟨p, hmem, by simpa using hpred⟩
    by_cases hmax : analysis.max_path_length > 10 <;>
      simp [check_unusual_paths, hmax, hf, hany]

/-- Twenty-one pairwise-distinct raw paths for the C9 counterexample:
twenty three-hop paths without prepending, then one eight-hop path with
six consecutive prepends.  `analyze_paths` deduplicates all 21 but
retains only the first 20 (`unique_paths[:20]`), dropping the only
prepend-heavy path. -/
def c9ManyPathStrings : List String :=
  ["1 100 3", "2 100 3", "3 100 3", "4 100 3", "5 100 3",
   "6 100 3", "7 100 3", "8 100 3", "9 100 3", "10 100 3",
   "11 100 3", "12 100 3", "13 100 3", "14 100 3", "15 100 3",
   "16 100 3", "17 100 3", "18 100 3", "19 100 3", "20 100 3",
   "9 9 9 9 9 9 9 8"]

def c9ManyAnalysis : PathAnalysis :=
  analyze_paths "AS64500" c9ManyPathStrings

/-- **C9 (counterexample).** The input has 21 pairwise-distinct paths;
the deduplicated path `[9, 9, 9, 9, 9, 9, 9, 8]` has prepend count
6 > 5, but the analysis retains only the first 20 unique paths, none of
which has any prepending — and the unusual-path check emits **no**
anomaly at all, contradicting the claim that any individual deduplicated
path with prepend count > 5 yields a low-severity anomaly. -/
theorem c9_counterexample :
    (c9ManyPathStrings.map parse_as_path).Nodup ∧
    parse_as_path "9 9 9 9 9 9 9 8" = [9, 9, 9, 9, 9, 9, 9, 8] ∧
    prependCount [9, 9, 9, 9, 9, 9, 9, 8] = 6 ∧
    c9ManyAnalysis.path_count = 21 ∧
    c9ManyAnalysis.unique_paths.length = 20 ∧
    c9ManyAnalysis.unique_paths.all (fun p => p.prepend_count = 0) = true ∧
    check_unusual_paths "AS64500" c9ManyAnalysis = [] := by
  refine ⟨?_, ?_, ?_, ?_, ?_, ?_, ?_⟩ <;> decide

/-- **C9 (amended).** In `DetectAnomalies`' unusual-path check: exactly
one `unusual_path_length` anomaly at severity `medium` is emitted iff the
maximum observed path length exceeds 10 hops; exactly one additional
`unusual_path_length` anomaly at severity `low` is emitted iff some
deduplicated path **among the at most 20 retained in the analysis**
(`unique_paths[:20]`) has prepend count > 5, and it reports the first
matching retained path only; a deduplicated path beyond the first 20 is
never examined. -/
theorem c9_unusual_path_checks :
    ∀ (resource : String) (peerPathStrings : List String),
      ((check_unusual_paths resource
            (analyze_paths resource peerPathStrings)).filter
          (fun a => a.severity = RiskLevel.medium)).length =
        (if (analyze_paths resource peerPathStrings).max_path_length > 10
         then 1 else 0) ∧
      ((check_unusual_paths resource
            (analyze_paths resource peerPathStrings)).filter
          (fun a => a.severity = RiskLevel.low)).length =
        (if (analyze_paths resource peerPathStrings).unique_paths.any
            (fun p => p.prepend_count > 5)
         then 1 else 0) ∧
      (∀ a ∈ check_unusual_paths resource
          (analyze_paths resource peerPathStrings),
        a.type = AnomalyType.unusual_path_length) ∧
      ∀ p, (analyze_paths resource peerPathStrings).unique_paths.find?
          (fun q => q.prepend_count > 5) = some p →
        ∃ a ∈ check_unusual_paths resource
            (analyze_paths resource peerPathStrings),
          a.severity = RiskLevel.low ∧ a.details_path = p.path ∧
            a.details_prepend_count = some p.prepend_count :=
  fun resource peerPathStrings =>
    check_unusual_paths_props resource (analyze_paths resource peerPathStrings)

/-- Witness for C9: a single path with six consecutive prepends yields
the low-severity anomaly for that (first) path. -/
theorem c9_unusual_path_checks_witness :
    ∃ a ∈ check_unusual_paths "AS64500"
        (analyze_paths "AS64500" ["1 1 1 1 1 1 1 2"]),
      a.severity = RiskLevel.low ∧
      a.details_path = [1, 1, 1, 1, 1, 1, 1, 2] ∧
      a.details_prepend_count = some 6 :=
  (c9_unusual_path_checks "AS64500" ["1 1 1 1 1 1 1 2"]).2.2.2
    (create_as_path [1, 1, 1, 1, 1, 1, 1, 2]) rfl

/-- Witness for C10: the all-failure profile. -/
theorem c10_health_never_unknown_witness :
    (allFailProfile.health = HealthStatus.healthy ∨
      allFailProfile.health = HealthStatus.warning ∨
      allFailProfile.health = HealthStatus.critical) ∧
    allFailProfile.health = HealthStatus.warning :=
  ⟨c10_health_never_unknown.1 65000 {} allFailProfile rfl,
   c10_health_never_unknown.2 allFailProfile rfl⟩

end RouteSherlock
